import Mathlib

/-!
Shallow embedding of `nestjs-redis-bloomfilter` (src/lib/bloom-filter.service.ts
and the module/option declarations) in Lean 4, together with theorems settling
the frozen claims about its specification.

Modelling conventions:
* JavaScript values that travel in wire-level argument lists or replies are
  either strings or numbers; numbers are modelled as `Rat` (integer values are
  the only ones the claims evaluate, and on those the model's `toString`
  agrees with JavaScript's `String(n)`).
* JavaScript strict equality `===` between such values is structural equality
  on the model type (no cross-type coercion, exactly as `===`).
* A TypeScript optional parameter is an `Option`; JavaScript truthiness of a
  number is `≠ 0`, of a string is `≠ ""`, of an array or object is: present.
* A promise that either resolves or rejects with an error message is an
  `Except String α`; the typed errors thrown by the service form `BloomError`.
-/

namespace BloomFilterService

/-- A wire-level value: a JavaScript string or number as it appears in a
command argument list or a reply. -/
inductive RVal where
  | str (s : String)
  | num (q : Rat)
deriving DecidableEq, Repr

/-- A single request issued to the remote store: command name plus the
positional argument list handed to `client.call`. -/
structure RedisRequest where
  command : String
  args : List RVal
deriving DecidableEq, Repr

/-- The typed errors of src/lib/exceptions: NonScalingFilterIsFull,
FilterAlreadyExists, BloomFilterUnknownException,
BloomFilterInstallationException. -/
inductive BloomError where
  | nonScalingFilterIsFull (key : String)
  | filterAlreadyExists (key : String)
  | bloomFilterUnknownException (msg : String)
  | bloomFilterInstallationException (msg : String)
deriving DecidableEq, Repr

/-- Helper for `jsIndexOf`: index of the first position of `s` (counted from
`i`) at which `sub` is a prefix, if any. -/
def firstIdxAux (sub : List Char) : List Char → Nat → Option Nat
  | [], i => if sub.isPrefixOf [] then some i else none
  | c :: t, i => if sub.isPrefixOf (c :: t) then some i else firstIdxAux sub t (i + 1)

/-- JavaScript `String.prototype.indexOf`: index of the first occurrence of
`sub` in `s`, and `-1` when `sub` does not occur. -/
def jsIndexOf (s sub : String) : Int :=
  match firstIdxAux sub.data s.data 0 with
  | some i => (i : Int)
  | none => -1

/-- JavaScript `String(n)` on a number. On the integer values the claims
evaluate this agrees with JavaScript's decimal rendering. -/
def jsNumString (q : Rat) : String := toString q

/-- Embeds the argument building of `reserve`
(src/lib/bloom-filter.service.ts lines 269-275):
`nonScaling = expansion > 0; if (!nonScaling) push('EXPANSION', expansion);
else push('NONSCALING');`. -/
def reserveArgs (key : String) (errorRate capacity expansion : Rat) : List RVal :=
  let nonScaling : Bool := decide (expansion > 0)
  if !nonScaling then
    [RVal.str key, RVal.num errorRate, RVal.num capacity, RVal.str "EXPANSION", RVal.num expansion]
  else
    [RVal.str key, RVal.num errorRate, RVal.num capacity, RVal.str "NONSCALING"]

/-- The single request issued by `reserve` (line 278). -/
def reserveRequest (key : String) (errorRate capacity expansion : Rat) : RedisRequest :=
  { command := "BF.RESERVE", args := reserveArgs key errorRate capacity expansion }

/-- Embeds the reply/error handling of `reserve` (lines 279-287):
resolve ↦ `response === 'OK'`; reject ↦ `if (err.indexOf('item exists'))
throw FilterAlreadyExists; throw BloomFilterUnknownException(err)`.
The `if` tests JavaScript truthiness of the index, i.e. index ≠ 0. -/
def reserveOutcome (key : String) (reply : Except String RVal) : Except BloomError Bool :=
  match reply with
  | Except.ok response => Except.ok (response == RVal.str "OK")
  | Except.error err =>
    if jsIndexOf err "item exists" ≠ 0 then
      Except.error (BloomError.filterAlreadyExists key)
    else
      Except.error (BloomError.bloomFilterUnknownException err)

/-- Embeds the reply/error handling of `add` (lines 62-74):
resolve ↦ `response === 1`; reject ↦
`if (err.indexOf('non scaling filter is full')) throw NonScalingFilterIsFull;
throw BloomFilterUnknownException(err)`.
The `if` tests JavaScript truthiness of the index, i.e. index ≠ 0. -/
def addOutcome (key : String) (reply : Except String RVal) : Except BloomError Bool :=
  match reply with
  | Except.ok response => Except.ok (response == RVal.num 1)
  | Except.error err =>
    if jsIndexOf err "non scaling filter is full" ≠ 0 then
      Except.error (BloomError.nonScalingFilterIsFull key)
    else
      Except.error (BloomError.bloomFilterUnknownException err)

/-- Embeds the reply/error handling of `exists` (lines 105-114):
resolve ↦ `response === '1'`; reject ↦ BloomFilterUnknownException. -/
def existsOutcome (reply : Except String RVal) : Except BloomError Bool :=
  match reply with
  | Except.ok response => Except.ok (response == RVal.str "1")
  | Except.error err => Except.error (BloomError.bloomFilterUnknownException err)

/-- The single request issued by `scanDump` (line 309):
`this.getClient().call('BF.SCANDUMP', iterator)` — the source passes only the
iterator to `call`; the `key` parameter does not reach the argument list. -/
def scanDumpRequest (key : String) (iterator : Rat) : RedisRequest :=
  { command := "BF.SCANDUMP", args := [RVal.num iterator] }

/-- Node's `Buffer.from` on a value that is either a binary string or `null`
(modelled as `none`): `Buffer.from(null)` throws a TypeError. -/
def bufferFrom : Option String → Except String String
  | some data => Except.ok data
  | none => Except.error "TypeError: argument must not be null"

/-- Embeds the reply handling of `scanDump` (lines 308-315): the reply pair
`(response[0], response[1])` is mapped to `[response[0], Buffer.from(response[1])]`;
an exception thrown inside the handler is caught by the trailing catch and
re-thrown as BloomFilterUnknownException. -/
def scanDumpOutcome (reply : Rat × Option String) : Except BloomError (Rat × String) :=
  match bufferFrom reply.2 with
  | Except.ok chunk => Except.ok (reply.1, chunk)
  | Except.error err => Except.error (BloomError.bloomFilterUnknownException err)

/-- The INFO_KEY_REPLACE map of the service (lines 14-20). -/
def INFO_KEY_REPLACE (aKey : String) : Option String :=
  if aKey = "Capacity" then some "CAPACITY"
  else if aKey = "Size" then some "SIZE"
  else if aKey = "Number of filters" then some "NUMBER_OF_FILTERS"
  else if aKey = "Number of items inserted" then some "NUMBER_OF_ITEMS"
  else if aKey = "Expansion rate" then some "EXPANSION_RATE"
  else none

/-- The key used to store a pair in the `info` result object (line 147):
`this.INFO_KEY_REPLACE[aKey] || aKey` (all map values are non-empty, so `||`
is exactly fall-back on a miss). -/
def normalizeInfoKey (aKey : String) : String := (INFO_KEY_REPLACE aKey).getD aKey

/-- A reply element used as a property key: a JavaScript object key is the
value coerced to a string. -/
def infoKeyOf : RVal → String
  | RVal.str s => s
  | RVal.num q => toString q

/-- Embeds the pair-reading loop of `info` (lines 142-149):
`for (i = 0; i < result.length; i += 2) response[REPLACE[result[i]] || result[i]]
= result[i+1] ?? 0`. A trailing key with no following value (`result[i+1]`
undefined) stores `0`. The result object is modelled as the association list
of stored pairs in loop order. -/
def infoMapping : List RVal → List (String × RVal)
  | [] => []
  | [kv] => [(normalizeInfoKey (infoKeyOf kv), RVal.num 0)]
  | kv :: v :: rest => (normalizeInfoKey (infoKeyOf kv), v) :: infoMapping rest

/-- Embeds the attribute branch of `info` (lines 137-139):
`if (attribute) return result as number` — the raw reply is passed through
unchanged as a bare number. -/
def infoBare (result : Rat) : Rat := result

/-- A NAME VALUE pair appended by `insert` for one optional numeric parameter
(lines 169-171): `if (v) insertArgs.push(NAME, String(v))` — JavaScript
truthiness of a number skips the pair when the value is absent or `0`. -/
def numPair (name : String) (value : Option Rat) : List String :=
  match value with
  | some v => if v = 0 then [] else [name, jsNumString v]
  | none => []

/-- Embeds the argument building of `insert` (lines 167-173). `items` is a
required array parameter, hence always truthy; `flags`, when present (even
empty), is joined with single spaces into one token, as is the item list. -/
def insertArgs (key : String) (items : List String) (capacity errorRate expansion : Option Rat)
    (flags : Option (List String)) : List String :=
  [key]
    ++ numPair "CAPACITY" capacity
    ++ numPair "ERROR" errorRate
    ++ numPair "EXPANSION" expansion
    ++ (match flags with
        | some fs => [String.intercalate " " fs]
        | none => [])
    ++ ["ITEMS", String.intercalate " " items]

/-- The connection block of IBloomFilterOptions
(src interfaces: host, port, optional username/password/db). Fields are
`Option` so that runtime absence and the `||` defaulting of the constructor
can be expressed. -/
structure IRedisConnectionConfig where
  host : Option String
  port : Option Rat
  username : Option String
  password : Option String
  db : Option Rat
deriving DecidableEq, Repr

/-- The configuration handed to `new Redis({...})` by the constructor
(lines 27-33). -/
structure RedisClientConfig where
  host : String
  port : Rat
  username : Option String
  password : Option String
  db : Option Rat
deriving DecidableEq, Repr

/-- The client handle held by the service after construction: either the
pre-built handle from the options, or one built from connection parameters. -/
inductive BFClient where
  | provided
  | built (cfg : RedisClientConfig)
deriving DecidableEq, Repr

/-- IBloomFilterOptions: an optional pre-built client handle (opaque) and an
optional connection block. -/
structure IBloomFilterOptions where
  client : Option Unit
  connection : Option IRedisConnectionConfig
deriving DecidableEq, Repr

/-- JavaScript `value || dflt` on a string: falls back when the value is
absent or the empty string. -/
def jsOrString (value : Option String) (dflt : String) : String :=
  match value with
  | some s => if s = "" then dflt else s
  | none => dflt

/-- JavaScript `value || dflt` on a number: falls back when the value is
absent or `0`. -/
def jsOrNum (value : Option Rat) (dflt : Rat) : Rat :=
  match value with
  | some q => if q = 0 then dflt else q
  | none => dflt

/-- Embeds the constructor (lines 22-35): throw
BloomFilterInstallationException when neither `client` nor `connection` is
supplied; otherwise, when no client is supplied, build one with
`host: connection.host || '127.0.0.1'`, `port: connection.port || 6379` and
the remaining fields passed through. The `none, none` arm below is
unreachable under the first guard; reaching it in JavaScript would be a
TypeError on reading a property of `undefined`. -/
def constructService (config : IBloomFilterOptions) : Except BloomError BFClient :=
  if config.client = none ∧ config.connection = none then
    Except.error (BloomError.bloomFilterInstallationException
      "Connection config or client must defined in options")
  else
    match config.client, config.connection with
    | some _, _ => Except.ok BFClient.provided
    | none, some connection =>
        Except.ok (BFClient.built
          { host := jsOrString connection.host "127.0.0.1"
            port := jsOrNum connection.port 6379
            username := connection.username
            password := connection.password
            db := connection.db })
    | none, none =>
        Except.error (BloomError.bloomFilterUnknownException
          "TypeError: Cannot read properties of undefined")

/-- C1: the claim states that reserve with expansion 2 issues
["users", 0.01, 1000, "EXPANSION", 2] and with expansion 0 issues
["users", 0.01, 1000, "NONSCALING"]. Evaluating the source's argument
building at exactly these inputs shows the two flag branches are swapped:
expansion 2 yields the NONSCALING flag, and expansion 0 yields an
EXPANSION pair carrying 0. -/
theorem reserve_flags_inverted :
    reserveArgs "users" (1/100) 1000 2 =
      [RVal.str "users", RVal.num (1/100), RVal.num 1000, RVal.str "NONSCALING"] ∧
    reserveArgs "users" (1/100) 1000 0 =
      [RVal.str "users", RVal.num (1/100), RVal.num 1000, RVal.str "EXPANSION", RVal.num 0] :=
  ⟨rfl, rfl⟩

/-- C2: the claim states that scanDump issues the filter key followed by the
iterator. Evaluating the issued request at scanDump("users", 0) shows the
argument list holds only the iterator; the key never reaches the wire. -/
theorem scanDump_request_omits_key :
    scanDumpRequest "users" 0 = { command := "BF.SCANDUMP", args := [RVal.num 0] } ∧
    RVal.str "users" ∉ (scanDumpRequest "users" 0).args :=
  ⟨rfl, by decide⟩

/-- C3: the claim states that the specific error kinds are raised exactly
when the failure message contains the recognized substring. The source tests
the JavaScript truthiness of `indexOf`, which is `index ≠ 0`: a message not
containing the substring (index -1) raises the specific error, while a
message starting with the substring (index 0) falls through to the generic
exception — both directions of the claim fail, in add and in reserve. -/
theorem error_classification_inverted :
    addOutcome "users" (Except.error "ERR timeout") =
      Except.error (BloomError.nonScalingFilterIsFull "users") ∧
    addOutcome "users" (Except.error "non scaling filter is full") =
      Except.error (BloomError.bloomFilterUnknownException "non scaling filter is full") ∧
    reserveOutcome "users" (Except.error "ERR timeout") =
      Except.error (BloomError.filterAlreadyExists "users") ∧
    reserveOutcome "users" (Except.error "item exists") =
      Except.error (BloomError.bloomFilterUnknownException "item exists") := by
  exact ⟨rfl, rfl, rfl, rfl⟩

/-- C4 counterexample: the claim states that add returns true on the string
form "1" of the reply; the source compares with `=== 1`, so the string reply
"1" yields false. -/
theorem add_string_one_counterexample :
    addOutcome "users" (Except.ok (RVal.str "1")) = Except.ok false := rfl

/-- C4 amended: add returns true exactly when the reply is the numeric
literal 1; every other reply — including the string "1" and any form of
"0" — returns false. -/
theorem add_true_iff_numeric_one :
    ∀ (key : String) (r : RVal),
      addOutcome key (Except.ok r) = Except.ok true ↔ r = RVal.num 1 := by
  intro key r
  simp [addOutcome]

/-- C5: the claim states that the terminal scan reply (iterator 0, null
payload) is returned as a normal result and never raises. The source feeds
the payload to `Buffer.from`, which throws on null; the trailing catch
re-wraps the TypeError as the generic exception, so the terminal null reply
raises instead of returning. A terminal reply whose payload is an empty
(non-null) chunk is returned normally. -/
theorem scanDump_terminal_null_throws :
    scanDumpOutcome (0, none) =
      Except.error (BloomError.bloomFilterUnknownException
        "TypeError: argument must not be null") ∧
    scanDumpOutcome (0, some "") = Except.ok (0, "") :=
  ⟨rfl, rfl⟩

/-- C6: exists returns true exactly when the reply equals the string "1";
in particular the numeric reply 1 is not strictly equal to the string "1"
and yields false. -/
theorem exists_true_iff_string_one :
    (∀ r : RVal, existsOutcome (Except.ok r) = Except.ok true ↔ r = RVal.str "1") ∧
    existsOutcome (Except.ok (RVal.num 1)) = Except.ok false := by
  constructor
  · intro r
    simp [existsOutcome]
  · rfl

/-- C7: info without an attribute builds its mapping by reading consecutive
pairs of the flat reply; the five known raw labels are normalized to
CAPACITY, SIZE, NUMBER_OF_FILTERS, NUMBER_OF_ITEMS, EXPANSION_RATE; any
other key passes through unchanged; a trailing key with no value stores 0;
info with an attribute returns the bare number unchanged. -/
theorem info_mapping_spec :
    (∀ (kv v : RVal) (rest : List RVal),
        infoMapping (kv :: v :: rest) =
          (normalizeInfoKey (infoKeyOf kv), v) :: infoMapping rest) ∧
    (∀ aKey : String,
        aKey ∉ ["Capacity", "Size", "Number of filters",
          "Number of items inserted", "Expansion rate"] →
        normalizeInfoKey aKey = aKey) ∧
    (normalizeInfoKey "Capacity" = "CAPACITY" ∧
      normalizeInfoKey "Size" = "SIZE" ∧
      normalizeInfoKey "Number of filters" = "NUMBER_OF_FILTERS" ∧
      normalizeInfoKey "Number of items inserted" = "NUMBER_OF_ITEMS" ∧
      normalizeInfoKey "Expansion rate" = "EXPANSION_RATE") ∧
    (∀ kv : RVal, infoMapping [kv] = [(normalizeInfoKey (infoKeyOf kv), RVal.num 0)]) ∧
    (∀ n : Rat, infoBare n = n) := by
  refine ⟨fun kv v rest => rfl, ?_, by decide, fun kv => rfl, fun n => rfl⟩
  intro aKey h
  simp only [List.mem_cons, List.not_mem_nil, or_false, not_or] at h
  obtain ⟨h1, h2, h3, h4, h5⟩ := h
  simp [normalizeInfoKey, INFO_KEY_REPLACE, h1, h2, h3, h4, h5]

/-- Witness for C7 at concrete inputs: an unknown key passes through the
normalization unchanged. -/
theorem info_mapping_spec_witness : normalizeInfoKey "ITEMS_TOTAL" = "ITEMS_TOTAL" :=
  info_mapping_spec.2.1 "ITEMS_TOTAL" (by decide)

/-- C8: the insert argument list begins with the key, appends each provided
(nonzero) optional as a NAME VALUE pair in the order CAPACITY, ERROR,
EXPANSION, then the flag tokens space-joined into one token when flags are
given, then "ITEMS" followed by the items space-joined into one token; the
concrete scenario insert("users", ["a","b"], capacity=500) issues
["users", "CAPACITY", "500", "ITEMS", "a b"]. -/
theorem insert_args_order :
    (∀ (key : String) (items fs : List String) (c e x : Rat),
        c ≠ 0 → e ≠ 0 → x ≠ 0 →
        insertArgs key items (some c) (some e) (some x) (some fs) =
          [key, "CAPACITY", jsNumString c, "ERROR", jsNumString e,
            "EXPANSION", jsNumString x, String.intercalate " " fs,
            "ITEMS", String.intercalate " " items]) ∧
    insertArgs "users" ["a", "b"] (some 500) none none none =
      ["users", "CAPACITY", "500", "ITEMS", "a b"] := by
  constructor
  · intro key items fs c e x hc he hx
    simp [insertArgs, numPair, hc, he, hx]
  · rfl

/-- Witness for C8 at concrete inputs: all three numeric options and a flag
list provided. -/
theorem insert_args_order_witness :
    insertArgs "k" ["i"] (some 10) (some 1) (some 3) (some ["NOCREATE"]) =
      ["k", "CAPACITY", jsNumString 10, "ERROR", jsNumString 1,
        "EXPANSION", jsNumString 3, String.intercalate " " ["NOCREATE"],
        "ITEMS", String.intercalate " " ["i"]] :=
  insert_args_order.1 "k" ["i"] ["NOCREATE"] 10 1 3 (by decide) (by decide) (by decide)

/-- C9: construction fails with the installation error exactly when neither
a client handle nor connection parameters are supplied; when only connection
parameters are supplied, the built handle uses the default host "127.0.0.1"
when the host is absent and the default port 6379 when the port is absent,
passing the remaining fields through. -/
theorem constructor_validation_and_defaults :
    (∀ config : IBloomFilterOptions,
        (∃ e, constructService config = Except.error e) ↔
          config.client = none ∧ config.connection = none) ∧
    (∀ connection : IRedisConnectionConfig,
        connection.host = none → connection.port = none →
        constructService { client := none, connection := some connection } =
          Except.ok (BFClient.built
            { host := "127.0.0.1", port := 6379, username := connection.username,
              password := connection.password, db := connection.db })) ∧
    (∀ (connection : IRedisConnectionConfig) (hostVal : String),
        connection.host = some hostVal → hostVal ≠ "" → connection.port = none →
        constructService { client := none, connection := some connection } =
          Except.ok (BFClient.built
            { host := hostVal, port := 6379, username := connection.username,
              password := connection.password, db := connection.db })) ∧
    (∀ (connection : IRedisConnectionConfig) (portVal : Rat),
        connection.host = none → connection.port = some portVal → portVal ≠ 0 →
        constructService { client := none, connection := some connection } =
          Except.ok (BFClient.built
            { host := "127.0.0.1", port := portVal, username := connection.username,
              password := connection.password, db := connection.db })) := by
  refine ⟨?_, ?_, ?_, ?_⟩
  · rintro ⟨client, connection⟩
    cases client <;> cases connection <;> simp [constructService]
  · intro connection h1 h2
    simp [constructService, jsOrString, jsOrNum, h1, h2]
  · intro connection hostVal h1 hne h2
    simp [constructService, jsOrString, jsOrNum, h1, h2, hne]
  · intro connection portVal h1 h2 hne
    simp [constructService, jsOrString, jsOrNum, h1, h2, hne]

/-- Witness for C9 at concrete inputs: a connection block with every field
absent builds a handle with the default host and port. -/
theorem constructor_validation_and_defaults_witness :
    constructService
        { client := none,
          connection := some
            { host := none, port := none, username := none, password := none, db := none } } =
      Except.ok (BFClient.built
        { host := "127.0.0.1", port := 6379, username := none, password := none, db := none }) :=
  constructor_validation_and_defaults.2.1
    { host := none, port := none, username := none, password := none, db := none } rfl rfl

/-- C10: passing 0 for capacity, error rate or expansion of insert appends
no NAME VALUE pair, making it indistinguishable on the wire from omitting
the parameter; an empty flags array still appends one empty-string token
(the space-join of no flags), which an absent flags parameter does not. -/
theorem insert_zero_options_and_empty_flags :
    (∀ (key : String) (items : List String) (e x : Option Rat) (fs : Option (List String)),
        insertArgs key items (some 0) e x fs = insertArgs key items none e x fs) ∧
    (∀ (key : String) (items : List String) (c x : Option Rat) (fs : Option (List String)),
        insertArgs key items c (some 0) x fs = insertArgs key items c none x fs) ∧
    (∀ (key : String) (items : List String) (c e : Option Rat) (fs : Option (List String)),
        insertArgs key items c e (some 0) fs = insertArgs key items c e none fs) ∧
    (∀ (key : String) (items : List String) (c e x : Option Rat),
        insertArgs key items c e x (some []) =
          [key] ++ numPair "CAPACITY" c ++ numPair "ERROR" e ++ numPair "EXPANSION" x
            ++ [""] ++ ["ITEMS", String.intercalate " " items] ∧
        insertArgs key items c e x none =
          [key] ++ numPair "CAPACITY" c ++ numPair "ERROR" e ++ numPair "EXPANSION" x
            ++ ["ITEMS", String.intercalate " " items]) := by
  refine ⟨?_, ?_, ?_, ?_⟩ <;> intros <;>
    simp [insertArgs, numPair, String.intercalate]

end BloomFilterService
